import Mathlib

/-!
Verification development for the realtime-voice-rag backend.

The definitions below are a shallow embedding of the Python sources:

* MockConnectionManager of backend/app/api/routes/websocket_mock.py
  (connect, disconnect, handle_message, websocket_endpoint loop);
* ConnectionManager of backend/app/api/routes/websocket_simple.py
  (connect protocol check, disconnect);
* RAGService.enhance_message_with_context and its helpers of
  backend/app/api/services/rag_service.py;
* ConnectionManager.forward_audio of backend/app/api/routes/websocket.py
  together with RAGManager.query_documents of backend/app/core/rag_manager.py.

Network transport (the actual socket sends) is modelled by recording the
envelopes each handler emits, in emission order.  Collaborator invocations
(the mock RAG service, the Whisper transcriber, the vector-store search) are
recorded as explicit call traces.  Python exceptions raised inside a handler
body are modelled by the handler returning the partial effects performed
before the raise plus the error envelope emitted by the enclosing
try/except, exactly as the source does.
-/

/-- Value of a field inside an output-format dictionary: the Python code
stores either strings (such as "pcm_16") or numbers (such as 24000). -/
inductive FVal where
  | s : String → FVal
  | n : Int → FVal
  deriving DecidableEq, Repr

/-- An output-format dictionary, as the association list of its fields.
Python dict keys are unique; lookup takes the first binding. -/
abbrev OutputFormat := List (String × FVal)

/-- First-match lookup in an output-format dictionary. -/
def lookupField : OutputFormat → String → Option FVal
  | [], _ => none
  | (k2, v) :: rest, k => if k2 = k then some v else lookupField rest k

/-- One element of a message's "content" list.  Each field models the
corresponding optional dictionary key read by the handlers
("type", "role", "content", "text"). -/
structure ContentItem where
  type : Option String := none
  role : Option String := none
  content : Option String := none
  text : Option String := none
  deriving DecidableEq, Repr

/-- The empty dictionary used as default content item by the mock handler
(message_data.get("content", [\x7b\x7d])[0]). -/
def emptyItem : ContentItem := {}

/-- Text extraction of the mock conversation.item.create branch:
content.get("content", "") or content.get("text", ""). -/
def convText (c : ContentItem) : String :=
  if c.content.getD "" = "" then c.text.getD "" else c.content.getD ""

/-- A parsed inbound client message, with the optional fields the mock
handler reads.  A missing key is none. -/
structure ClientMsg where
  type : Option String := none
  data : Option String := none
  output_format : Option OutputFormat := none
  content : Option (List ContentItem) := none
  deriving DecidableEq, Repr

/-- The per-connection record stored in MockConnectionManager's
active_connections (session_id and created_at are runtime identifiers that
no claim depends on; the output_format key is the mutable part). -/
structure ConnInfo where
  output_format : Option OutputFormat := none
  deriving DecidableEq, Repr

/-- State of the mock manager restricted to one client connection:
conn is the active_connections entry (none when the websocket is not a key
of the dictionary), audio_buffer the audio_buffers entry for the session
(none when the session id is not a key). -/
structure MockState where
  conn : Option ConnInfo := none
  audio_buffer : Option (List String) := none
  deriving DecidableEq, Repr

/-- Collaborator invocations performed by the mock handler. -/
inductive CollabCall where
  | getMockAudioCall
  | enhanceCall (msg : String)
  deriving DecidableEq, Repr

/-- An envelope sent to the client by the mock manager (send_json /
close calls, in order). -/
inductive OutEnv where
  | connectionEstablished
  | sessionCreateAck
  | sessionUpdateAck (fmt : OutputFormat)
  | appendAck
  | commitAck
  | responseCreate (format sampleRate channels : FVal) (data : String)
  | responseCompleted
  | conversationItemCreated (text : String)
  | errorEnv (msg : String)
  | closedEnv (code : Nat) (reason : String)
  deriving DecidableEq, Repr

/-- Result of one handle_message call: the state after the call, the
envelopes sent to the client, the collaborator calls made, and the audio
string assembled at a commit (the join at line 108 of websocket_mock.py;
the code only logs its length, so it is recorded here as the observation
of what was assembled).  Partial effects performed before an exception are
kept, and the error envelope of the except block is the last element of
sent, as in the source. -/
structure HandleResult where
  state : MockState
  sent : List OutEnv
  calls : List CollabCall
  assembled : Option String := none
  deriving DecidableEq, Repr

/-- MockRAGService.enhance_message_with_context: fixed mock context joined
and prefixed around the message. -/
def mockEnhance (message : String) : String :=
  "Context: This is a mock context from the RAG service.\nUser message: " ++ message

/-- The base64 sine-wave payload built in MockRAGService.__init__.  Its
exact bytes come from numpy floating-point synthesis and are not modelled;
this constant stands for that fixed string.  No claim depends on its
value, only on where it is sent. -/
def mockAudioConst : String := "mock-audio-payload"

/-- The default output format literal of the commit and conversation
branches of the mock handler. -/
def defaultOutputFormat : OutputFormat :=
  [("type", FVal.s "audio"), ("format", FVal.s "pcm_16"),
   ("sample_rate", FVal.n 24000), ("channels", FVal.n 1)]

/-- Error envelope text emitted by the except block of handle_message when
the body raised a KeyError.  The Python text interpolates str(e), whose
exact content is runtime specific; no claim depends on it. -/
def keyErrorMsg : String := "Error processing message: KeyError"

/-- Error envelope text when the body raised the IndexError of indexing
an empty content list. -/
def indexErrorMsg : String := "Error processing message: list index out of range"

/-- The response block shared by the commit and conversation branches of
the mock handler (lines 118-149 and 171-201 of websocket_mock.py): read
the stored output format or the default, then send response.create with
the format, sample_rate and channels fields followed by
response.completed.  A missing field raises KeyError, so only the error
envelope of the except block follows. -/
def responseOuts (ci : ConnInfo) : List OutEnv :=
  match lookupField (ci.output_format.getD defaultOutputFormat) "format",
        lookupField (ci.output_format.getD defaultOutputFormat) "sample_rate",
        lookupField (ci.output_format.getD defaultOutputFormat) "channels" with
  | some f, some sr, some ch =>
      [OutEnv.responseCreate f sr ch mockAudioConst, OutEnv.responseCompleted]
  | _, _, _ => [OutEnv.errorEnv keyErrorMsg]

/-- Message classification tag. -/
inductive MsgTag where
  | update | append | commit | convCreate | other
  deriving DecidableEq, Repr

/-- The if-chain on message_data.get("type") of handle_message, in source
order. -/
def tagOf (t : Option String) : MsgTag :=
  if t = some "session.update" then MsgTag.update
  else if t = some "input_audio_buffer.append" then MsgTag.append
  else if t = some "input_audio_buffer.commit" then MsgTag.commit
  else if t = some "conversation.item.create" then MsgTag.convCreate
  else MsgTag.other

/-- MockConnectionManager.handle_message.  Reading
active_connections[websocket] with no entry raises KeyError, reported by
the except block with no state change.  The session.update branch stores
the supplied output_format (default empty dictionary) wholesale.  The
append branch appends only when a "data" key is present and always acks.
The commit branch, on a nonempty buffer, joins and clears the buffer,
acks, calls get_mock_audio then enhance_message_with_context with the
fixed string, and emits the response block; on an empty or absent buffer
it only logs a warning.  The conversation branch indexes the first content
item (IndexError on an explicit empty list), extracts its text, calls
enhance then get_mock_audio, sends conversation.item.created with the
enhanced text and the response block. -/
def handle_message (st : MockState) (m : ClientMsg) : HandleResult :=
  match st.conn with
  | none => { state := st, sent := [OutEnv.errorEnv keyErrorMsg], calls := [] }
  | some ci =>
    match tagOf m.type with
    | MsgTag.update =>
        { state := { st with conn := some { output_format := some (m.output_format.getD []) } },
          sent := [OutEnv.sessionUpdateAck (m.output_format.getD [])], calls := [] }
    | MsgTag.append =>
        match m.data with
        | some d =>
            { state := { st with audio_buffer := some ((st.audio_buffer.getD []) ++ [d]) },
              sent := [OutEnv.appendAck], calls := [] }
        | none => { state := st, sent := [OutEnv.appendAck], calls := [] }
    | MsgTag.commit =>
        match st.audio_buffer with
        | some (c :: cs) =>
            { state := { st with audio_buffer := some [] },
              sent := OutEnv.commitAck :: responseOuts ci,
              calls := [CollabCall.getMockAudioCall, CollabCall.enhanceCall "Audio message received"],
              assembled := some (String.join (c :: cs)) }
        | _ => { state := st, sent := [], calls := [] }
    | MsgTag.convCreate =>
        match m.content.getD [emptyItem] with
        | [] => { state := st, sent := [OutEnv.errorEnv indexErrorMsg], calls := [] }
        | first :: _ =>
            { state := st,
              sent := OutEnv.conversationItemCreated (mockEnhance (convText first)) :: responseOuts ci,
              calls := [CollabCall.enhanceCall (convText first), CollabCall.getMockAudioCall] }
    | MsgTag.other => { state := st, sent := [], calls := [] }

/-- The reason string of the mock handler's protocol rejection close. -/
def missingProtocolReason : String := "Missing \x27realtime\x27 protocol"

/-- The empty manager state: this websocket is in no registry. -/
def mockInit : MockState := {}

/-- MockConnectionManager.connect: when the requested subprotocols do not
contain "realtime", close with code 4000 and return without touching any
registry; otherwise accept, create the connection entry, initialize the
session's audio buffer, and send connection_established then
session.create.ack. -/
def mock_connect (st : MockState) (protocols : List String) : MockState × List OutEnv :=
  if protocols.contains "realtime" then
    ({ conn := some {}, audio_buffer := some [] },
     [OutEnv.connectionEstablished, OutEnv.sessionCreateAck])
  else
    (st, [OutEnv.closedEnv 4000 missingProtocolReason])

/-- MockConnectionManager.disconnect: when the websocket is registered,
delete its audio buffer entry and its connection entry; otherwise do
nothing. -/
def mock_disconnect (st : MockState) : MockState :=
  match st.conn with
  | some _ => { conn := none, audio_buffer := none }
  | none => st

/-- An inbound text frame of the mock endpoint loop: either text that
json.loads rejects, or a parsed message. -/
inductive Frame where
  | malformed
  | valid (m : ClientMsg)
  deriving DecidableEq, Repr

/-- The receive loop of websocket_mock.websocket_endpoint: a frame whose
JSON parse raises breaks out of the loop (remaining frames are never
read); a parsed frame is passed to handle_message, which catches its own
errors, and the loop continues. -/
def mock_loop (st : MockState) : List Frame → MockState × List OutEnv
  | [] => (st, [])
  | Frame.malformed :: _ => (st, [])
  | Frame.valid m :: rest =>
      let r := handle_message st m
      let (st2, outs) := mock_loop r.state rest
      (st2, r.sent ++ outs)

/-- websocket_mock.websocket_endpoint: connect, then (when the handshake
was accepted) run the receive loop over the inbound frames; the finally
block always runs disconnect. -/
def mock_endpoint (protocols : List String) (frames : List Frame) : MockState × List OutEnv :=
  let (st1, outs1) := mock_connect mockInit protocols
  let (st2, outs2) := if st1.conn.isSome then mock_loop st1 frames else (st1, [])
  (mock_disconnect st2, outs1 ++ outs2)

/-- State of websocket_simple.ConnectionManager restricted to one client
connection: membership in active_connections, presence of the
openai_connections entry, and the sessions entry. -/
structure SimpleState where
  active : Bool := false
  openaiConn : Bool := false
  session : Option String := none
  deriving DecidableEq, Repr

/-- Observable outcome of websocket_simple.ConnectionManager.connect for
the handshake phase. -/
inductive SimpleOut where
  | closedOut (code : Nat) (reason : String)
  | acceptedOut
  deriving DecidableEq, Repr

/-- The list comprehension [p.strip() for p in requested_protocol.split(",")]. -/
def stripParts (s : String) : List String :=
  (s.splitOn ",").map (fun p => p.trim)

/-- The protocol test of websocket_simple.ConnectionManager.connect:
"not requested_protocol or \x22realtime\x22 not in parts" negated.  A
missing header or an empty header string is rejected, as is any header
whose comma-separated, stripped parts do not contain "realtime". -/
def protocolOk : Option String → Bool
  | none => false
  | some s => if s = "" then false else (stripParts s).contains "realtime"

/-- websocket_simple.ConnectionManager.connect, handshake phase: a failed
protocol test closes the socket with code 1002 before any registry is
touched.  On success the websocket is accepted and registered; the
subsequent upstream (OpenAI) connection, session negotiation and response
forwarding task are network effects outside this model, which records
only the acceptance. -/
def simple_connect (st : SimpleState) (header : Option String) :
    SimpleState × List SimpleOut :=
  if protocolOk header then
    ({ st with active := true }, [SimpleOut.acceptedOut])
  else
    (st, [SimpleOut.closedOut 1002 "realtime protocol required"])

/-- websocket_simple.ConnectionManager.disconnect: when the websocket is
in active_connections, remove it, close and delete the OpenAI connection
entry when present, and delete the sessions entry when present; otherwise
do nothing. -/
def simple_disconnect (st : SimpleState) : SimpleState :=
  if st.active then { active := false, openaiConn := false, session := none } else st

/-- One retrieved context entry of RAGService.get_relevant_context:
page content plus the metadata dictionary (the float relevance score is
dropped, no code path downstream of retrieval reads it). -/
structure CtxDoc where
  content : String
  metadata : List (String × String) := []
  deriving DecidableEq, Repr

/-- First-match lookup in a metadata dictionary. -/
def lookupMeta : List (String × String) → String → Option String
  | [], _ => none
  | (k2, v) :: rest, k => if k2 = k then some v else lookupMeta rest k

/-- The enumerate(context, 1) loop body of
RAGService.format_context_for_prompt. -/
def formatItems : Nat → List CtxDoc → String
  | _, [] => ""
  | i, d :: rest =>
      toString i ++ ". " ++ d.content ++ "\n" ++
      (if d.metadata = [] then ""
       else "Source: " ++ (lookupMeta d.metadata "source").getD "Unknown" ++ "\n") ++
      "\n" ++ formatItems (i + 1) rest

/-- RAGService.format_context_for_prompt. -/
def format_context_for_prompt (ctx : List CtxDoc) : String :=
  if ctx = [] then ""
  else "Here is some relevant information:\n\n" ++ formatItems 1 ctx

/-- The fixed prefix of the system context message built by
RAGService.enhance_message_with_context. -/
def contextPreamble : String :=
  "Use the following context to help answer the user\x27s question:\n\n"

/-- The system-role message inserted at position 0 by
RAGService.enhance_message_with_context. -/
def contextSystemMessage (ctx : List CtxDoc) : ContentItem :=
  { type := some "message", role := some "system",
    content := some (contextPreamble ++ format_context_for_prompt ctx), text := none }

/-- The extraction loop of RAGService.enhance_message_with_context: the
first content item with role "user" and type "message" yields its
"content" value (default empty string) and the loop breaks; with no such
item the extracted message stays empty. -/
def extractUserMessage : List ContentItem → String
  | [] => ""
  | c :: rest =>
      if c.role = some "user" ∧ c.type = some "message" then c.content.getD ""
      else extractUserMessage rest

/-- A conversation.item.create envelope as read by
RAGService.enhance_message_with_context: the type tag, the content list
(default empty when the key is missing) and the session field.  The
session field stands for the remaining keys of the dictionary, which the
enhancement copies through untouched. -/
structure MessageData where
  type : Option String := none
  content : List ContentItem := []
  session : Option String := none
  deriving DecidableEq, Repr

/-- RAGService.enhance_message_with_context, parameterized by the
vector-store retrieval (get_relevant_context): with no user message or an
empty retrieval the envelope is returned unchanged; otherwise the system
context message is inserted at position 0 of a copy of the content list
and all other fields are kept. -/
def enhance_message_with_context (retrieve : String → List CtxDoc)
    (md : MessageData) : MessageData :=
  if extractUserMessage md.content = "" then md
  else if retrieve (extractUserMessage md.content) = [] then md
  else { md with
         content := contextSystemMessage (retrieve (extractUserMessage md.content))
                      :: md.content }

/-- One document returned by RAGManager.query_documents: page content and
metadata (the score is dropped, nothing downstream reads it). -/
structure RDoc where
  content : String
  metadataSource : Option String := none
  deriving DecidableEq, Repr

/-- Collaborator invocations of websocket.ConnectionManager.forward_audio. -/
inductive Call2 where
  | transcribeCall (audioBytes : String)
  | searchCall (query : String)
  deriving DecidableEq, Repr

/-- Envelopes forward_audio sends on the upstream (OpenAI) socket.  The
audio envelope carries the raw bytes; their base64 transport encoding is
a bijective re-coding not modelled. -/
inductive UpMsg where
  | audioMsg (data : String)
  | textMsg (text : String)
  deriving DecidableEq, Repr

/-- Envelopes forward_audio sends to the client. -/
inductive ClientOut where
  | transcriptionOut (content : String) (citations : List RDoc)
  | errorOut (content : String)
  deriving DecidableEq, Repr

/-- Result of one forward_audio call: upstream envelopes, client
envelopes, collaborator calls, each in emission order. -/
structure ForwardResult where
  upstream : List UpMsg
  client : List ClientOut
  calls : List Call2
  deriving DecidableEq, Repr

/-- RAGManager.query_documents, parameterized by the vector-store search:
with no vector store it returns the empty list without searching; a search
exception is caught and yields the empty list.  The second component
records the similarity-search invocation. -/
def query_documents (hasStore : Bool) (search : String → Except String (List RDoc))
    (q : String) : List RDoc × List Call2 :=
  if hasStore then
    match search q with
    | Except.ok l => (l, [Call2.searchCall q])
    | Except.error _ => ([], [Call2.searchCall q])
  else ([], [])

/-- websocket.ConnectionManager.forward_audio, parameterized by the
Whisper transcription and the vector-store search.  With no upstream
connection entry nothing happens.  A transcription exception is caught by
the enclosing try/except, which sends an error envelope to the client;
nothing has been sent upstream at that point.  On success the transcript
is stripped, context is retrieved (retrieval failures yield the empty
list inside query_documents), the joined context and query text follow
the raw audio upstream, and the transcription with citations goes to the
client. -/
def forward_audio (transcribe : String → Except String String) (hasStore : Bool)
    (search : String → Except String (List RDoc)) (connected : Bool)
    (audioData : String) : ForwardResult :=
  if connected then
    match transcribe audioData with
    | Except.error e =>
        { upstream := [],
          client := [ClientOut.errorOut ("Error processing audio: " ++ e)],
          calls := [Call2.transcribeCall audioData] }
    | Except.ok raw =>
        { upstream :=
            [UpMsg.audioMsg audioData,
             UpMsg.textMsg ("Context: " ++
               String.intercalate "\n"
                 ((query_documents hasStore search raw.trim).1.map (fun d => d.content)) ++
               "\nUser Query: " ++ raw.trim)],
          client := [ClientOut.transcriptionOut raw.trim
                       (query_documents hasStore search raw.trim).1],
          calls := Call2.transcribeCall audioData ::
                     (query_documents hasStore search raw.trim).2 }
  else { upstream := [], client := [], calls := [] }

/-- An input_audio_buffer.append envelope carrying a data chunk. -/
def appendEnvelope (c : String) : ClientMsg :=
  { type := some "input_audio_buffer.append", data := some c }

/-- An input_audio_buffer.append envelope with no "data" key. -/
def appendNoDataEnvelope : ClientMsg :=
  { type := some "input_audio_buffer.append" }

/-- An input_audio_buffer.commit envelope. -/
def commitEnvelope : ClientMsg :=
  { type := some "input_audio_buffer.commit" }

/-- A session.update envelope carrying an output_format dictionary. -/
def sessionUpdateEnvelope (fmt : OutputFormat) : ClientMsg :=
  { type := some "session.update", output_format := some fmt }

/-- A conversation.item.create envelope with an explicit content list. -/
def convEnvelope (items : List ContentItem) : ClientMsg :=
  { type := some "conversation.item.create", content := some items }

/-- The manager state right after a successful mock handshake: registered
connection with no negotiated output format, empty audio buffer. -/
def connectedInit : MockState := { conn := some {}, audio_buffer := some [] }

/-- Folding a sequence of append envelopes through handle_message. -/
def runAppends (st : MockState) (cs : List String) : MockState :=
  cs.foldl (fun s c => (handle_message s (appendEnvelope c)).state) st

/-- The output format currently stored for the session (empty when absent). -/
def storedFormat (st : MockState) : OutputFormat :=
  match st.conn with
  | some ci => ci.output_format.getD []
  | none => []

/-- Whether an envelope list contains an error envelope. -/
def containsErrorEnv (l : List OutEnv) : Bool :=
  l.any (fun e => match e with | OutEnv.errorEnv _ => true | _ => false)

/-- Modelled from the spec: the merge the specification describes for
session.update ("Merge supplied output-format fields into
Session.outputFormat", fields not mentioned keep their previous values),
stated as dictionary update.  Defined only to contrast with the
replacement the code performs. -/
def specMergeFormats (old new : OutputFormat) : OutputFormat :=
  old.filter (fun kv => (lookupField new kv.1).isNone) ++ new

/-- A first session.update payload fixing format and sample rate. -/
def fmtA : OutputFormat := [("format", FVal.s "pcm_16"), ("sample_rate", FVal.n 24000)]

/-- A second session.update payload mentioning only the format field. -/
def fmtB : OutputFormat := [("format", FVal.s "mp3")]

/-- Step lemma: an append with data on a registered connection extends the
buffer (initializing it when the key is absent) and acks. -/
theorem handle_append_eq (ci : ConnInfo) (buf : Option (List String)) (c : String) :
    handle_message ⟨some ci, buf⟩ (appendEnvelope c) =
      { state := ⟨some ci, some (buf.getD [] ++ [c])⟩,
        sent := [OutEnv.appendAck], calls := [] } := rfl

/-- Step lemma: a commit on a registered connection with nonempty buffer
clears the buffer, records the joined audio, acks and emits the response
block, calling get_mock_audio and the enhancement with the fixed string. -/
theorem handle_commit_cons (ci : ConnInfo) (c : String) (cs : List String) :
    handle_message ⟨some ci, some (c :: cs)⟩ commitEnvelope =
      { state := ⟨some ci, some []⟩,
        sent := OutEnv.commitAck :: responseOuts ci,
        calls := [CollabCall.getMockAudioCall, CollabCall.enhanceCall "Audio message received"],
        assembled := some (String.join (c :: cs)) } := rfl

/-- Step lemma: a conversation.item.create with a nonempty content list
acks with the enhanced text and emits the response block, leaving the
state unchanged. -/
theorem handle_conv_cons (ci : ConnInfo) (buf : Option (List String))
    (item : ContentItem) (rest : List ContentItem) :
    handle_message ⟨some ci, buf⟩ (convEnvelope (item :: rest)) =
      { state := ⟨some ci, buf⟩,
        sent := OutEnv.conversationItemCreated (mockEnhance (convText item)) :: responseOuts ci,
        calls := [CollabCall.enhanceCall (convText item), CollabCall.getMockAudioCall] } := rfl

/-- Running a sequence of appends with data over a registered connection
concatenates the chunks onto the buffer in order. -/
theorem runAppends_eq (ci : ConnInfo) (cs : List String) :
    ∀ b : List String, runAppends ⟨some ci, some b⟩ cs = ⟨some ci, some (b ++ cs)⟩ := by
  induction cs with
  | nil => intro b; simp [runAppends]
  | cons c cs ih =>
      intro b
      have hstep : runAppends ⟨some ci, some b⟩ (c :: cs)
          = runAppends ⟨some ci, some (b ++ [c])⟩ cs := rfl
      rw [hstep, ih (b ++ [c])]
      simp

/-- C1: for every sequence of input_audio_buffer.append envelopes carrying
data chunks followed by one input_audio_buffer.commit, the audio string
assembled at commit (the join of the session buffer in the mock commit
branch) equals the concatenation of the appended chunks in append order,
and the session's audio buffer is empty immediately after the commit
handler runs. -/
theorem C1_append_commit_concatenation (cs : List String) (h : cs ≠ []) :
    (handle_message (runAppends connectedInit cs) commitEnvelope).assembled
        = some (String.join cs)
  ∧ (handle_message (runAppends connectedInit cs) commitEnvelope).state.audio_buffer
        = some [] := by
  obtain ⟨c, cs', rfl⟩ := List.exists_cons_of_ne_nil h
  have hrun : runAppends connectedInit (c :: cs') = ⟨some {}, some (c :: cs')⟩ := by
    simpa [connectedInit] using runAppends_eq {} (c :: cs') []
  rw [hrun, handle_commit_cons]
  exact ⟨rfl, rfl⟩

/-- Witness for C1 at the concrete chunks "AAA", "BBB". -/
theorem C1_append_commit_concatenation_witness :
    (["AAA", "BBB"] : List String) ≠ []
  ∧ ((handle_message (runAppends connectedInit ["AAA", "BBB"]) commitEnvelope).assembled
        = some (String.join ["AAA", "BBB"])
     ∧ (handle_message (runAppends connectedInit ["AAA", "BBB"]) commitEnvelope).state.audio_buffer
        = some []) :=
  ⟨by decide, C1_append_commit_concatenation ["AAA", "BBB"] (by decide)⟩

/-- C4: a commit arriving while the session's audio buffer is empty (or
its key absent) is a no-op apart from the logged warning: the state is
unchanged, no collaborator is invoked, and no envelope at all (in
particular no response-request) is constructed or sent. -/
theorem C4_empty_commit_noop (st : MockState) (ci : ConnInfo)
    (h : st.conn = some ci)
    (hb : st.audio_buffer = none ∨ st.audio_buffer = some []) :
    handle_message st commitEnvelope =
      { state := st, sent := [], calls := [], assembled := none } := by
  obtain ⟨conn, buf⟩ := st
  obtain rfl : conn = some ci := h
  rcases hb with hb | hb <;> · obtain rfl : buf = _ := hb; rfl

/-- Witness for C4 at the freshly connected state (empty buffer). -/
theorem C4_empty_commit_noop_witness :
    connectedInit.conn = some {}
  ∧ (connectedInit.audio_buffer = none ∨ connectedInit.audio_buffer = some [])
  ∧ handle_message connectedInit commitEnvelope =
      { state := connectedInit, sent := [], calls := [], assembled := none } :=
  ⟨rfl, Or.inr rfl, C4_empty_commit_noop connectedInit {} rfl (Or.inr rfl)⟩

/-- C8 counterexample: the claim says fields not mentioned in a
session.update keep their previous values.  After updating with
format and sample_rate and then with format alone, the stored output
format no longer binds sample_rate, whereas the merge the claim
describes would keep it at 24000. -/
theorem C8_counterexample :
    lookupField
        (storedFormat
          (handle_message
            (handle_message connectedInit (sessionUpdateEnvelope fmtA)).state
            (sessionUpdateEnvelope fmtB)).state)
        "sample_rate" = none
  ∧ lookupField (specMergeFormats fmtA fmtB) "sample_rate" = some (FVal.n 24000) := by
  decide

/-- C8 amended: a session.update replaces the session's stored output
format wholesale with the supplied output_format dictionary (an absent
key stores the empty dictionary, and fields not mentioned in the update
are dropped), and the client receives a session.update.ack carrying that
dictionary. -/
theorem C8_session_update_replaces (st : MockState) (ci : ConnInfo)
    (fmtOpt : Option OutputFormat) (h : st.conn = some ci) :
    handle_message st { type := some "session.update", output_format := fmtOpt } =
      { state := { st with conn := some { output_format := some (fmtOpt.getD []) } },
        sent := [OutEnv.sessionUpdateAck (fmtOpt.getD [])], calls := [] } := by
  obtain ⟨conn, buf⟩ := st
  obtain rfl : conn = some ci := h
  rfl

/-- Witness for C8 at the concrete payload fmtB over a session that
already stored fmtA. -/
theorem C8_session_update_replaces_witness :
    (handle_message connectedInit (sessionUpdateEnvelope fmtA)).state.conn
        = some { output_format := some fmtA }
  ∧ handle_message (handle_message connectedInit (sessionUpdateEnvelope fmtA)).state
        { type := some "session.update", output_format := some fmtB } =
      { state := { (handle_message connectedInit (sessionUpdateEnvelope fmtA)).state with
                     conn := some { output_format := some ((some fmtB).getD []) } },
        sent := [OutEnv.sessionUpdateAck ((some fmtB).getD [])], calls := [] } :=
  ⟨rfl,
   C8_session_update_replaces
     (handle_message connectedInit (sessionUpdateEnvelope fmtA)).state
     { output_format := some fmtA } (some fmtB) rfl⟩

/-- C9: disconnect is idempotent in both managers: on an
already-disconnected state it is the identity (no registry, session map
or audio buffer changes, no envelope is emitted and nothing is raised),
and a second disconnect after any disconnect changes nothing. -/
theorem C9_disconnect_idempotent :
    (∀ st : MockState, st.conn = none → mock_disconnect st = st)
  ∧ (∀ st : MockState, mock_disconnect (mock_disconnect st) = mock_disconnect st)
  ∧ (∀ st : SimpleState, st.active = false → simple_disconnect st = st)
  ∧ (∀ st : SimpleState, simple_disconnect (simple_disconnect st) = simple_disconnect st) := by
  refine ⟨?_, ?_, ?_, ?_⟩
  · intro st h
    obtain ⟨conn, buf⟩ := st
    obtain rfl : conn = none := h
    rfl
  · intro st
    obtain ⟨conn, buf⟩ := st
    cases conn <;> rfl
  · intro st h
    obtain ⟨a, o, s⟩ := st
    obtain rfl : a = false := h
    rfl
  · intro st
    obtain ⟨a, o, s⟩ := st
    cases a <;> rfl

/-- A fully registered simple-manager state, for the C9 witness. -/
def simpleLive : SimpleState :=
  { active := true, openaiConn := true, session := some "s1" }

/-- Witness for C9 at concrete disconnected states. -/
theorem C9_disconnect_idempotent_witness :
    mock_disconnect mockInit = mockInit
  ∧ mock_disconnect (mock_disconnect connectedInit) = mock_disconnect connectedInit
  ∧ simple_disconnect {} = ({} : SimpleState)
  ∧ simple_disconnect (simple_disconnect simpleLive) = simple_disconnect simpleLive :=
  ⟨C9_disconnect_idempotent.1 mockInit rfl,
   C9_disconnect_idempotent.2.1 connectedInit,
   C9_disconnect_idempotent.2.2.1 {} rfl,
   C9_disconnect_idempotent.2.2.2 simpleLive⟩

/-- The close codes occurring in an envelope list, in emission order. -/
def closeCodes (l : List OutEnv) : List Nat :=
  l.filterMap (fun e => match e with
    | OutEnv.closedEnv code _ => some code
    | _ => none)

/-- C2 counterexample: the claim says every handler closes a connection
lacking the required subprotocol with close code 1002.  The mock handler,
offered the subprotocol list ["chat"], closes with code 4000 and no close
with code 1002 ever occurs in its output (though it does create no
session state). -/
theorem C2_close_code_counterexample :
    (mock_connect mockInit ["chat"]).2 = [OutEnv.closedEnv 4000 missingProtocolReason]
  ∧ closeCodes (mock_connect mockInit ["chat"]).2 = [4000]
  ∧ (closeCodes (mock_connect mockInit ["chat"]).2).contains 1002 = false
  ∧ (mock_connect mockInit ["chat"]).1 = mockInit
  ∧ (4000 : Nat) ≠ 1002 := by
  decide

/-- C2 amended: a connection whose handshake does not request the
realtime subprotocol is rejected before any session state is created —
the simple handler closes with code 1002, the mock handler with code
4000; in both, the manager state is untouched, so no session record,
audio buffer or upstream connection entry exists afterwards.  A whole
mock endpoint run with such a handshake emits only the close envelope,
processes none of the inbound frames, and ends with the empty manager
state. -/
theorem C2_subprotocol_reject :
    (∀ (st : SimpleState) (header : Option String), protocolOk header = false →
        simple_connect st header
          = (st, [SimpleOut.closedOut 1002 "realtime protocol required"]))
  ∧ (∀ (st : MockState) (ps : List String), ps.contains "realtime" = false →
        mock_connect st ps = (st, [OutEnv.closedEnv 4000 missingProtocolReason]))
  ∧ (∀ (ps : List String) (frames : List Frame), ps.contains "realtime" = false →
        mock_endpoint ps frames = (mockInit, [OutEnv.closedEnv 4000 missingProtocolReason])) := by
  refine ⟨?_, ?_, ?_⟩
  · intro st header h
    simp [simple_connect, h]
  · intro st ps h
    simp at h
    simp [mock_connect, h]
  · intro ps frames h
    simp at h
    simp [mock_endpoint, mock_connect, h, mockInit, mock_disconnect]

/-- Witness for C2 at a missing header and at the subprotocol list
["chat"], including a whole endpoint run over a pending frame. -/
theorem C2_subprotocol_reject_witness :
    protocolOk none = false
  ∧ simple_connect {} none = ({}, [SimpleOut.closedOut 1002 "realtime protocol required"])
  ∧ (["chat"] : List String).contains "realtime" = false
  ∧ mock_connect mockInit ["chat"] = (mockInit, [OutEnv.closedEnv 4000 missingProtocolReason])
  ∧ mock_endpoint ["chat"] [Frame.valid (appendEnvelope "X")]
      = (mockInit, [OutEnv.closedEnv 4000 missingProtocolReason]) :=
  ⟨rfl, C2_subprotocol_reject.1 {} none rfl, by decide,
   C2_subprotocol_reject.2.1 mockInit ["chat"] (by decide),
   C2_subprotocol_reject.2.2 ["chat"] [Frame.valid (appendEnvelope "X")] (by decide)⟩

/-- The conversation.item.create envelope whose explicit empty content
list makes the mock handler's first-item indexing raise IndexError. -/
def badConvEnvelope : ClientMsg :=
  { type := some "conversation.item.create", content := some [] }

/-- C3 counterexample: the claim says a malformed inbound frame is
reported with an error envelope, does not terminate the session, and
later valid frames are still processed.  Running the mock endpoint on a
malformed frame followed by a valid append: no error envelope is ever
sent, the append is never acknowledged (the frame after the malformed one
is not processed), and the session ends disconnected. -/
theorem C3_malformed_frame_counterexample :
    containsErrorEnv
        (mock_endpoint ["realtime"] [Frame.malformed, Frame.valid (appendEnvelope "X")]).2
      = false
  ∧ (mock_endpoint ["realtime"] [Frame.malformed, Frame.valid (appendEnvelope "X")]).2.contains
        OutEnv.appendAck = false
  ∧ (mock_endpoint ["realtime"] [Frame.malformed, Frame.valid (appendEnvelope "X")]).1.conn
      = none := by
  decide

/-- When the stored output format lacks the "format" field, the response
block of the commit and conversation branches raises KeyError and only
the except block's error envelope is emitted. -/
theorem responseOuts_missing_format (fmt : OutputFormat)
    (h : lookupField fmt "format" = none) :
    responseOuts { output_format := some fmt } = [OutEnv.errorEnv keyErrorMsg] := by
  have h2 : lookupField (((some fmt : Option OutputFormat)).getD defaultOutputFormat)
      "format" = none := h
  unfold responseOuts
  rw [h2]

/-- C3 amended: in the mock endpoint, a frame that fails JSON parsing
breaks the receive loop — the session is torn down with no error envelope
and the remaining frames are never processed.  By contrast, an error
raised while handling a successfully parsed frame is caught inside
handle_message and never breaks the loop: after any parsed frame the loop
goes on to process every subsequent frame from the post-handler state
(second conjunct), the error is reported to the client with an error
envelope, and the state effects performed before the raise persist — the
empty-content-list conversation error leaves the session state unchanged
(third conjunct), while a commit whose stored output format lacks the
"format" field has already cleared the audio buffer and sent commit.ack
when the error envelope is emitted (fourth conjunct). -/
theorem C3_error_handling :
    (∀ (st : MockState) (frames : List Frame),
        mock_loop st (Frame.malformed :: frames) = (st, []))
  ∧ (∀ (st : MockState) (m : ClientMsg) (rest : List Frame),
        mock_loop st (Frame.valid m :: rest)
          = ((mock_loop (handle_message st m).state rest).1,
             (handle_message st m).sent
               ++ (mock_loop (handle_message st m).state rest).2))
  ∧ (∀ (st : MockState) (ci : ConnInfo), st.conn = some ci →
        handle_message st badConvEnvelope
          = { state := st, sent := [OutEnv.errorEnv indexErrorMsg], calls := [] })
  ∧ (∀ (fmt : OutputFormat) (c : String) (cs : List String),
        lookupField fmt "format" = none →
        handle_message ⟨some { output_format := some fmt }, some (c :: cs)⟩ commitEnvelope
          = { state := ⟨some { output_format := some fmt }, some []⟩,
              sent := [OutEnv.commitAck, OutEnv.errorEnv keyErrorMsg],
              calls := [CollabCall.getMockAudioCall,
                        CollabCall.enhanceCall "Audio message received"],
              assembled := some (String.join (c :: cs)) }) := by
  refine ⟨?_, ?_, ?_, ?_⟩
  · intro st frames; rfl
  · intro st m rest; rfl
  · intro st ci h
    obtain ⟨conn, buf⟩ := st
    obtain rfl : conn = some ci := h
    rfl
  · intro fmt c cs h
    rw [handle_commit_cons, responseOuts_missing_format fmt h]

/-- Witness for C3: a malformed frame alone; the bad conversation frame
followed by a valid append; the empty-content error at the connected
state; and a commit at a session whose stored output format is the empty
dictionary (as a session.update with an empty output_format stores). -/
theorem C3_error_handling_witness :
    mock_loop connectedInit [Frame.malformed] = (connectedInit, [])
  ∧ mock_loop connectedInit [Frame.valid badConvEnvelope, Frame.valid (appendEnvelope "X")]
      = ((mock_loop (handle_message connectedInit badConvEnvelope).state
            [Frame.valid (appendEnvelope "X")]).1,
         (handle_message connectedInit badConvEnvelope).sent
           ++ (mock_loop (handle_message connectedInit badConvEnvelope).state
                 [Frame.valid (appendEnvelope "X")]).2)
  ∧ handle_message connectedInit badConvEnvelope
      = { state := connectedInit, sent := [OutEnv.errorEnv indexErrorMsg], calls := [] }
  ∧ handle_message ⟨some { output_format := some [] }, some ["AAA"]⟩ commitEnvelope
      = { state := ⟨some { output_format := some [] }, some []⟩,
          sent := [OutEnv.commitAck, OutEnv.errorEnv keyErrorMsg],
          calls := [CollabCall.getMockAudioCall,
                    CollabCall.enhanceCall "Audio message received"],
          assembled := some (String.join ["AAA"]) } :=
  ⟨C3_error_handling.1 connectedInit [],
   C3_error_handling.2.1 connectedInit badConvEnvelope [Frame.valid (appendEnvelope "X")],
   C3_error_handling.2.2.1 connectedInit {} rfl,
   C3_error_handling.2.2.2 [] "AAA" [] rfl⟩

/-- C5 counterexample: the claim says that after appending "AAA" and
"BBB" a commit invokes the Transcriber with "AAABBB" and the retriever
with the transcript.  In the mock commit path there is no transcriber
call at all: the only collaborator calls are get_mock_audio and the
context enhancement with the fixed string "Audio message received" —
never the concatenation "AAABBB". -/
theorem C5_mock_commit_counterexample :
    (handle_message (runAppends connectedInit ["AAA", "BBB"]) commitEnvelope).calls
      = [CollabCall.getMockAudioCall, CollabCall.enhanceCall "Audio message received"]
  ∧ CollabCall.enhanceCall "AAABBB"
      ∉ (handle_message (runAppends connectedInit ["AAA", "BBB"]) commitEnvelope).calls
  ∧ "Audio message received" ≠ "AAABBB" := by
  decide

/-- C5 amended: the commit path has no transcriber — on any nonempty
buffer the mock handler's collaborator calls are exactly get_mock_audio
and the context enhancement with the fixed string "Audio message
received" (the joined buffer is only logged); separately, in
websocket.py's forward_audio, which processes one binary frame rather
than a committed buffer, a successful transcription leads to the
retriever being queried with exactly the stripped transcript. -/
theorem C5_transcription_flow :
    (∀ (ci : ConnInfo) (c : String) (cs : List String),
        (handle_message ⟨some ci, some (c :: cs)⟩ commitEnvelope).calls
          = [CollabCall.getMockAudioCall, CollabCall.enhanceCall "Audio message received"])
  ∧ (∀ (transcribe : String → Except String String)
        (search : String → Except String (List RDoc)) (a raw : String),
        transcribe a = Except.ok raw →
        (forward_audio transcribe true search true a).calls
          = [Call2.transcribeCall a, Call2.searchCall raw.trim]) := by
  constructor
  · intro ci c cs
    rw [handle_commit_cons]
  · intro transcribe search a raw htr
    unfold forward_audio
    rw [htr]
    show Call2.transcribeCall a :: (query_documents true search raw.trim).2 = _
    rcases hs : search raw.trim with e | l <;> simp [query_documents, hs]

/-- Witness for C5: the transcriber returning "hello" on the frame "abc"
leads to a retrieval query for "hello". -/
theorem C5_transcription_flow_witness :
    (handle_message ⟨some {}, some ["AAA", "BBB"]⟩ commitEnvelope).calls
      = [CollabCall.getMockAudioCall, CollabCall.enhanceCall "Audio message received"]
  ∧ (forward_audio (fun _ => Except.ok "hello") true (fun _ => Except.ok []) true "abc").calls
      = [Call2.transcribeCall "abc", Call2.searchCall ("hello" : String).trim] :=
  ⟨C5_transcription_flow.1 {} "AAA" ["BBB"],
   C5_transcription_flow.2 (fun _ => Except.ok "hello") (fun _ => Except.ok []) "abc" "hello" rfl⟩

/-- C6: when a conversation.item.create envelope carries user-authored
text for which the retriever returns a nonempty result, the enhanced
structure (the one websocket_simple forwards upstream) equals the
original envelope with the single system-role context message inserted
at position 0, ahead of the unchanged content list, all other fields
kept; with no user text or an empty retrieval the envelope is returned
unchanged; and the mock handler acknowledges a conversation.item.create
with a conversation.item.created envelope as its first reply. -/
theorem C6_context_injection :
    (∀ (retrieve : String → List CtxDoc) (md : MessageData),
        extractUserMessage md.content ≠ "" →
        retrieve (extractUserMessage md.content) ≠ [] →
        enhance_message_with_context retrieve md
            = { md with
                content := contextSystemMessage (retrieve (extractUserMessage md.content))
                             :: md.content }
          ∧ (contextSystemMessage (retrieve (extractUserMessage md.content))).role
              = some "system")
  ∧ (∀ (retrieve : String → List CtxDoc) (md : MessageData),
        extractUserMessage md.content = "" ∨ retrieve (extractUserMessage md.content) = [] →
        enhance_message_with_context retrieve md = md)
  ∧ (∀ (st : MockState) (ci : ConnInfo) (item : ContentItem) (rest : List ContentItem),
        st.conn = some ci →
        (handle_message st (convEnvelope (item :: rest))).sent.head?
          = some (OutEnv.conversationItemCreated (mockEnhance (convText item)))) := by
  refine ⟨?_, ?_, ?_⟩
  · intro retrieve md h1 h2
    unfold enhance_message_with_context
    rw [if_neg h1, if_neg h2]
    exact ⟨rfl, rfl⟩
  · intro retrieve md h
    unfold enhance_message_with_context
    rcases h with h | h
    · rw [if_pos h]
    · by_cases h1 : extractUserMessage md.content = ""
      · rw [if_pos h1]
      · rw [if_neg h1, if_pos h]
  · intro st ci item rest h
    obtain ⟨conn, buf⟩ := st
    obtain rfl : conn = some ci := h
    rw [handle_conv_cons]
    rfl

/-- A concrete retrieval returning one passage, for the C6 witness. -/
def retrieveEx : String → List CtxDoc :=
  fun _ => [{ content := "X is a thing.", metadata := [("source", "x.txt")] }]

/-- A concrete conversation.item.create envelope with user text, for the
C6 witness. -/
def mdEx : MessageData :=
  { type := some "conversation.item.create",
    content := [{ type := some "message", role := some "user",
                  content := some "What is X?", text := none }],
    session := some "s1" }

/-- Witness for C6: the concrete envelope mdEx with retrieval retrieveEx,
the same envelope with an always-empty retrieval, and the mock
acknowledgment for a one-item content list. -/
theorem C6_context_injection_witness :
    (extractUserMessage mdEx.content ≠ ""
     ∧ retrieveEx (extractUserMessage mdEx.content) ≠ []
     ∧ (enhance_message_with_context retrieveEx mdEx
          = { mdEx with
              content := contextSystemMessage (retrieveEx (extractUserMessage mdEx.content))
                           :: mdEx.content }
        ∧ (contextSystemMessage (retrieveEx (extractUserMessage mdEx.content))).role
            = some "system"))
  ∧ enhance_message_with_context (fun _ => []) mdEx = mdEx
  ∧ (handle_message connectedInit (convEnvelope [{ content := some "hi" }])).sent.head?
      = some (OutEnv.conversationItemCreated
                (mockEnhance (convText { content := some "hi" }))) :=
  ⟨⟨by decide, by decide,
    C6_context_injection.1 retrieveEx mdEx (by decide) (by decide)⟩,
   C6_context_injection.2.1 (fun _ => []) mdEx (Or.inr rfl),
   C6_context_injection.2.2 connectedInit {} { content := some "hi" } [] rfl⟩

/-- C7 counterexample: the claim says a commit whose Transcriber fails
still forwards the response-request upstream with an empty context.  With
a failing transcription, forward_audio sends nothing upstream at all and
reports an error envelope to the client instead. -/
theorem C7_transcriber_failure_counterexample :
    (forward_audio (fun _ => Except.error "boom") true (fun _ => Except.ok [])
        true "xyz").upstream = []
  ∧ (forward_audio (fun _ => Except.error "boom") true (fun _ => Except.ok [])
        true "xyz").client = [ClientOut.errorOut "Error processing audio: boom"] := by
  decide

/-- C7 amended: a retrieval failure degrades gracefully — the forward
proceeds and the upstream text envelope carries an empty context string
ahead of the query; but a transcription failure aborts the forward:
nothing is sent upstream and the client receives an error envelope (the
session itself continues). -/
theorem C7_degraded_context :
    (∀ (transcribe : String → Except String String)
        (search : String → Except String (List RDoc)) (a raw e : String),
        transcribe a = Except.ok raw → search raw.trim = Except.error e →
        (forward_audio transcribe true search true a).upstream
          = [UpMsg.audioMsg a, UpMsg.textMsg ("Context: \nUser Query: " ++ raw.trim)])
  ∧ (∀ (transcribe : String → Except String String)
        (search : String → Except String (List RDoc)) (a e : String),
        transcribe a = Except.error e →
        (forward_audio transcribe true search true a).upstream = []
      ∧ (forward_audio transcribe true search true a).client
          = [ClientOut.errorOut ("Error processing audio: " ++ e)]) := by
  constructor
  · intro transcribe search a raw e htr hse
    have h1 : (forward_audio transcribe true search true a).upstream
        = [UpMsg.audioMsg a,
           UpMsg.textMsg ("Context: " ++
             String.intercalate "\n"
               ((query_documents true search raw.trim).1.map (fun d => d.content)) ++
             "\nUser Query: " ++ raw.trim)] := by
      unfold forward_audio
      rw [htr]
      rfl
    rw [h1]
    unfold query_documents
    rw [hse]
    rfl
  · intro transcribe search a e htr
    unfold forward_audio
    rw [htr]
    exact ⟨rfl, rfl⟩

/-- Witness for C7: a transcriber returning "hello" with a failing
retrieval, and a failing transcriber. -/
theorem C7_degraded_context_witness :
    (forward_audio (fun _ => Except.ok "hello") true (fun _ => Except.error "db down")
        true "abc").upstream
      = [UpMsg.audioMsg "abc", UpMsg.textMsg ("Context: \nUser Query: " ++ ("hello" : String).trim)]
  ∧ ((forward_audio (fun _ => Except.error "boom2") true (fun _ => Except.error "db down")
        true "abc").upstream = []
     ∧ (forward_audio (fun _ => Except.error "boom2") true (fun _ => Except.error "db down")
        true "abc").client = [ClientOut.errorOut ("Error processing audio: " ++ "boom2")]) :=
  ⟨C7_degraded_context.1 (fun _ => Except.ok "hello") (fun _ => Except.error "db down")
      "abc" "hello" "db down" rfl rfl,
   C7_degraded_context.2 (fun _ => Except.error "boom2") (fun _ => Except.error "db down")
      "abc" "boom2" rfl⟩

/-- C10: an input_audio_buffer.append envelope with no "data" key is still
acknowledged with input_audio_buffer.append.ack, and the session's audio
buffer (indeed the whole state) is left unchanged. -/
theorem C10_append_without_data (st : MockState) (ci : ConnInfo)
    (h : st.conn = some ci) :
    handle_message st appendNoDataEnvelope =
      { state := st, sent := [OutEnv.appendAck], calls := [] } := by
  obtain ⟨conn, buf⟩ := st
  obtain rfl : conn = some ci := h
  rfl

/-- Witness for C10 at a state holding one buffered chunk. -/
theorem C10_append_without_data_witness :
    handle_message ⟨some {}, some ["AAA"]⟩ appendNoDataEnvelope =
      { state := ⟨some {}, some ["AAA"]⟩, sent := [OutEnv.appendAck], calls := [] } :=
  C10_append_without_data ⟨some {}, some ["AAA"]⟩ {} rfl
